import Mathlib

/-!
Shallow embedding of the MediCheck AI workflow (medical_state.py,
medical_agents.py, medical_workflow.py, utils.py).

The LLM-backed tools (analyze_symptoms, create_recommendations,
create_escalation_advice, tavily_search) are external providers: the
node functions are parameterised by their results, and everything the
repository computes deterministically around those calls is embedded
faithfully.
-/

namespace MedCheck

/-! ### Python string primitives used by the code -/

/-- Python str.strip: drop leading and trailing whitespace. -/
def pyStrip (s : String) : String :=
  String.mk (((s.data.dropWhile Char.isWhitespace).reverse.dropWhile Char.isWhitespace).reverse)

/-- Python str.lower, character-wise (ASCII). -/
def pyLower (s : String) : String := String.mk (s.data.map Char.toLower)

/-- Python str.upper, character-wise (ASCII). -/
def pyUpper (s : String) : String := String.mk (s.data.map Char.toUpper)

/-- A single-quote character, as used by the Python repr of a list of strings. -/
def squote : String := String.mk [Char.ofNat 39]

/-- Python str(list-of-strings): brackets, comma-space separators, quoted items. -/
def pyReprStrList (l : List String) : String :=
  "[" ++ String.intercalate ", " (l.map (fun s => squote ++ s ++ squote)) ++ "]"

/-! ### Data model (models.py and medical_state.py) -/

/-- models.py SymptomAnalysis (urgency_level is a Literal low/moderate/urgent,
kept as String as the workflow state stores plain strings). -/
structure SymptomAnalysis where
  symptom_summary : String
  possible_conditions : List String
  urgency_level : String
  reasoning : String
deriving Repr, DecidableEq

/-- models.py PatientRecommendation. -/
structure PatientRecommendation where
  immediate_actions : List String
  general_care : List String
  when_to_seek_help : String
  follow_up : String
deriving Repr, DecidableEq

/-- models.py EscalationAdvice. -/
structure EscalationAdvice where
  urgency_message : String
  immediate_action : String
  warning_signs : List String
  emergency_contact : String
deriving Repr, DecidableEq

/-- medical_state.py MedicalState: the TypedDict threaded through the graph.
A missing key (or an empty dict value, which the code treats the same via
falsiness) is `none`.  Messages carry only their content strings. -/
structure MedicalState where
  messages : List String := []
  symptoms : Option String := none
  medical_history : Option String := none
  symptom_analysis : Option SymptomAnalysis := none
  medical_research : Option String := none
  recommendations : Option PatientRecommendation := none
  escalation_advice : Option EscalationAdvice := none
  urgency_level : Option String := none
  final_report : Option String := none
  report_filepath : Option String := none
deriving Repr, DecidableEq

/-- A partial state update returned by a node: only the keys present in the
returned dict are set.  `messages` is the list of appended messages. -/
structure StateUpdate where
  messages : List String := []
  symptoms : Option String := none
  medical_history : Option String := none
  symptom_analysis : Option SymptomAnalysis := none
  medical_research : Option String := none
  recommendations : Option PatientRecommendation := none
  escalation_advice : Option EscalationAdvice := none
  urgency_level : Option String := none
  final_report : Option String := none
  report_filepath : Option String := none
deriving Repr, DecidableEq

/-- Merge of one updated key: a key present in the update overwrites,
an absent key keeps the old value. -/
def updField {α : Type} : Option α → Option α → Option α
  | some v, _ => some v
  | none, old => old

/-- LangGraph state merge for MedicalState: `messages` is annotated with
add_messages and is concatenated; every other key is overwritten when the
update carries it (medical_state.py has no other reducer annotation). -/
def mergeState (s : MedicalState) (u : StateUpdate) : MedicalState where
  messages := s.messages ++ u.messages
  symptoms := updField u.symptoms s.symptoms
  medical_history := updField u.medical_history s.medical_history
  symptom_analysis := updField u.symptom_analysis s.symptom_analysis
  medical_research := updField u.medical_research s.medical_research
  recommendations := updField u.recommendations s.recommendations
  escalation_advice := updField u.escalation_advice s.escalation_advice
  urgency_level := updField u.urgency_level s.urgency_level
  final_report := updField u.final_report s.final_report
  report_filepath := updField u.report_filepath s.report_filepath

/-! ### Node functions (medical_agents.py)

The LLM invocations inside a node are external provider calls; their result
is passed in as a parameter.  Everything else follows the source line by line. -/

/-- medical_agents.py collect_patient_info: take the latest message as the
symptoms, default the medical history, or report that no input was found. -/
def collect_patient_info (state : MedicalState) : StateUpdate :=
  match state.messages.getLast? with
  | some content =>
      { symptoms := some content
        medical_history := some (state.medical_history.getD "No medical history provided")
        messages := ["Patient information collected successfully"] }
  | none =>
      { messages := ["No patient information found"] }

/-- medical_agents.py analyze_symptoms_node, parameterised by the outcome of
the tool-enabled LLM phase: `analysisResult` is the SymptomAnalysis the tool
produced (the code always obtains one, via the tool call or the direct
fallback) and `researchInfo` the accumulated tavily_search text. -/
def analyze_symptoms_node (analysisResult : SymptomAnalysis) (researchInfo : String)
    (state : MedicalState) : StateUpdate :=
  if state.symptoms.getD "" = "" then
    { messages := ["No symptoms provided for analysis"] }
  else
    { symptom_analysis := some analysisResult
      urgency_level := some analysisResult.urgency_level
      medical_research := some (if researchInfo = "" then "No additional research needed" else researchInfo)
      messages := ["Intelligent symptom analysis completed. Urgency level: " ++ analysisResult.urgency_level] }

/-- The interrupt prompt built in collect_medical_history from the current
symptom analysis. -/
def interrupt_message (analysis : SymptomAnalysis) : String :=
  "Based on the symptom analysis, do you have relevant medical history " ++
  "(medications, conditions, allergies, surgeries, family history) " ++
  "that might help improve the recommendations?\n\n" ++
  "Current analysis:\n" ++
  "- Summary: " ++ analysis.symptom_summary ++ "\n" ++
  "- Urgency: " ++ analysis.urgency_level ++ "\n" ++
  "- Possible conditions: " ++ pyReprStrList analysis.possible_conditions ++ "\n\n" ++
  "Enter your medical history (or " ++ squote ++ "no" ++ squote ++ "/" ++
  squote ++ "none" ++ squote ++ " if not applicable):"

/-- Result of running one node: either a returned partial update, or a
suspension via the LangGraph interrupt primitive carrying its prompt. -/
inductive StepResult where
  | completed (upd : StateUpdate)
  | suspended (prompt : String)
deriving Repr, DecidableEq

/-- The strings whose normalised form means no additional history. -/
def noHistoryAnswers : List String := ["no", "none", "n/a", ""]

/-- The update collect_medical_history builds from the resumed user input:
a non-empty input whose stripped lower-cased form is not a no-history answer
is stored stripped; otherwise the fixed sentinel is stored. -/
def history_update (user_input : String) : StateUpdate :=
  if user_input ≠ "" ∧ pyLower (pyStrip user_input) ∉ noHistoryAnswers then
    { medical_history := some (pyStrip user_input)
      messages := ["Medical history collected: " ++ pyStrip user_input] }
  else
    { medical_history := some "No additional medical history provided"
      messages := ["No additional medical history provided"] }

/-- medical_agents.py collect_medical_history.  `resume` is `none` on first
entry (the interrupt call suspends) and `some v` when re-entered with a
resume value v, which the interrupt call then returns. -/
def collect_medical_history (state : MedicalState) (resume : Option String) : StepResult :=
  match state.symptom_analysis with
  | none =>
      .completed { messages := ["No symptom analysis available for medical history collection"] }
  | some analysis =>
      match resume with
      | none => .suspended (interrupt_message analysis)
      | some user_input => .completed (history_update user_input)

/-- medical_agents.py create_recommendations_node, parameterised by the
PatientRecommendation the tool produced and the additional tavily_search
text accumulated during this node. -/
def create_recommendations_node (recResult : PatientRecommendation)
    (additionalResearch : String) (state : MedicalState) : StateUpdate :=
  match state.symptom_analysis with
  | none =>
      { messages := ["No symptom analysis available for recommendations"] }
  | some _ =>
      let medical_research := state.medical_research.getD ""
      let updated_research :=
        if additionalResearch = "" then medical_research
        else medical_research ++ "\n" ++ additionalResearch
      { recommendations := some recResult
        medical_research := some updated_research
        messages := ["Comprehensive patient recommendations generated successfully"] }

/-- medical_agents.py escalation_advice_node, parameterised by the
EscalationAdvice the create_escalation_advice tool produced. -/
def escalation_advice_node (escResult : EscalationAdvice) (state : MedicalState) : StateUpdate :=
  if state.urgency_level.getD "low" ≠ "urgent" then
    { messages := ["Case not urgent - escalation advice not needed"] }
  else
    match state.symptom_analysis, state.recommendations with
    | some _, some _ =>
        { escalation_advice := some escResult
          messages := ["Urgent escalation advice generated"] }
    | _, _ =>
        { messages := ["Insufficient data for escalation advice"] }

/-! ### Report generation (medical_agents.py generate_medical_report) -/

/-- A character matched by the regex class backslash-w (ASCII view):
letters, digits, underscore. -/
def isWordChar (c : Char) : Bool := c.isAlphanum || c = '_'

/-- A character matched by the regex class backslash-s (ASCII view). -/
def isSpaceChar (c : Char) : Bool := c.isWhitespace

/-- A character kept by re.sub removing everything outside word chars,
whitespace and hyphen. -/
def keepChar (c : Char) : Bool := isWordChar c || isSpaceChar c || c = '-'

/-- A character of a run collapsed to one underscore by the second re.sub. -/
def isDashSpace (c : Char) : Bool := c = '-' || isSpaceChar c

/-- re.sub replacing each maximal run of hyphens/whitespace by one
underscore: the flag records whether the previous character was part of
such a run. -/
def collapseRuns : List Char → Bool → List Char
  | [], _ => []
  | c :: cs, inRun =>
      if isDashSpace c then
        if inRun then collapseRuns cs true else '_' :: collapseRuns cs true
      else
        c :: collapseRuns cs false

/-- The symptom_preview computation of generate_medical_report: truncate the
symptoms to 30 characters, drop every character outside word chars,
whitespace and hyphen, then collapse each hyphen/whitespace run to one
underscore. -/
def symptom_preview (symptoms : String) : String :=
  String.mk (collapseRuns ((symptoms.data.take 30).filter keepChar) false)

/-- The report filename: medical_analysis_, the timestamp, the sanitized
symptom preview, extension md. -/
def report_filename (timestamp symptoms : String) : String :=
  "medical_analysis_" ++ timestamp ++ "_" ++ symptom_preview symptoms ++ ".md"

/-- Stated from the specification, for the refinement proof: a character of
the class listed there, letters, digits, underscore, whitespace, hyphen. -/
def spec_keepChar (c : Char) : Bool :=
  ('A' ≤ c && c ≤ 'Z') || ('a' ≤ c && c ≤ 'z') || ('0' ≤ c && c ≤ '9') ||
  c = '_' || c.isWhitespace || c = '-'

/-- Stated from the specification, for the refinement proof: replace each
maximal run of whitespace/hyphen characters with a single underscore. -/
def spec_collapse : List Char → List Char
  | [] => []
  | c :: cs =>
      if isDashSpace c then '_' :: spec_collapse (cs.dropWhile isDashSpace)
      else c :: spec_collapse cs
termination_by l => l.length
decreasing_by
  all_goals simp only [List.length_cons]
  · exact Nat.lt_succ_of_le (List.dropWhile_sublist isDashSpace).length_le
  · exact Nat.lt_succ_self _

/-- Stated from the specification, for the refinement proof: first 30
characters of the symptoms, characters outside the class removed, runs of
whitespace/hyphen collapsed to one underscore. -/
def spec_sanitized_prefix (symptoms : String) : String :=
  String.mk (spec_collapse ((symptoms.data.take 30).filter spec_keepChar))

/-- Numbered list rendering used throughout the report template. -/
def numberedLines (items : List String) : String :=
  String.join ((items.enumFrom 1).map (fun p => toString p.1 ++ ". " ++ p.2 ++ "\n"))

/-- The report body of generate_medical_report, with the display timestamp
(datetime.now formatted) passed in. -/
def report_content (now : String) (state : MedicalState) : String :=
  let summary := (state.symptom_analysis.map (·.symptom_summary)).getD "N/A"
  let conditions := (state.symptom_analysis.map (·.possible_conditions)).getD []
  let urgency := (state.symptom_analysis.map (·.urgency_level)).getD "N/A"
  let reasoning := (state.symptom_analysis.map (·.reasoning)).getD "N/A"
  let immediate_actions := (state.recommendations.map (·.immediate_actions)).getD []
  let general_care := (state.recommendations.map (·.general_care)).getD []
  let when_to_seek_help := (state.recommendations.map (·.when_to_seek_help)).getD "N/A"
  let follow_up := (state.recommendations.map (·.follow_up)).getD "N/A"
  let base :=
    "# MediCheck AI - Medical Analysis Report\n\n" ++
    "**Generated:** " ++ now ++ "\n\n" ++
    "## Patient Information\n" ++
    "**Reported Symptoms:** " ++ state.symptoms.getD "" ++ "\n" ++
    "**Medical History:** " ++ state.medical_history.getD "" ++ "\n\n" ++
    "## Symptom Analysis\n" ++
    "**Summary:** " ++ summary ++ "\n\n" ++
    "**Possible Conditions:**\n" ++ numberedLines conditions ++
    "\n**Urgency Level:** " ++ pyUpper urgency ++ "\n" ++
    "**Reasoning:** " ++ reasoning ++ "\n\n" ++
    "## Recommendations\n\n" ++
    "**Immediate Actions:**\n" ++ numberedLines immediate_actions ++
    "\n**General Self-Care:**\n" ++ numberedLines general_care ++
    "\n**When to Seek Help:** " ++ when_to_seek_help ++ "\n" ++
    "**Follow-up:** " ++ follow_up ++ "\n"
  let withEscalation :=
    match state.escalation_advice with
    | none => base
    | some esc =>
        base ++
        "\n## URGENT ESCALATION ADVICE\n" ++
        "**Urgency Message:** " ++ esc.urgency_message ++ "\n" ++
        "**Immediate Action:** " ++ esc.immediate_action ++ "\n\n" ++
        "**Warning Signs:**\n" ++ numberedLines esc.warning_signs ++
        "\n**Emergency Contact:** " ++ esc.emergency_contact ++ "\n"
  withEscalation ++
    "\n---\n" ++
    "**IMPORTANT DISCLAIMER:** This analysis is for educational purposes only and is NOT a substitute for professional medical advice, diagnosis, or treatment. Always consult healthcare professionals for medical concerns.\n"

/-- medical_agents.py generate_medical_report: build the report, derive the
filename from the timestamp and the sanitized symptoms, and record the
report and its location (the file write itself is an external sink). -/
def generate_medical_report (now timestamp : String) (state : MedicalState) : StateUpdate :=
  let report := report_content now state
  let filepath := "medical_reports/" ++ report_filename timestamp (state.symptoms.getD "")
  { final_report := some report
    report_filepath := some filepath
    messages := ["Medical analysis complete! Report saved to: " ++ filepath] }

/-- medical_agents.py should_escalate: the conditional-edge function. -/
def should_escalate (state : MedicalState) : String :=
  if state.urgency_level.getD "low" = "urgent" then "escalation_advice_node"
  else "generate_medical_report"

/-! ### Workflow graph (medical_workflow.py) -/

/-- The six graph nodes added by medcheck_builder. -/
inductive Node where
  | collect_patient_info
  | analyze_symptoms_node
  | collect_medical_history
  | create_recommendations_node
  | escalation_advice_node
  | generate_medical_report
deriving Repr, DecidableEq

/-- The mapping of add_conditional_edges: the string returned by
should_escalate names the next node. -/
def routeAfterRecommendations (state : MedicalState) : Node :=
  if should_escalate state = "escalation_advice_node" then .escalation_advice_node
  else .generate_medical_report

/-- The edges of medcheck_builder, as the successor of each node given the
state after it completed (END is `none`).  The only conditional edge follows
create_recommendations_node. -/
def nextAfter (state : MedicalState) : Node → Option Node
  | .collect_patient_info => some .analyze_symptoms_node
  | .analyze_symptoms_node => some .collect_medical_history
  | .collect_medical_history => some .create_recommendations_node
  | .create_recommendations_node => some (routeAfterRecommendations state)
  | .escalation_advice_node => some .generate_medical_report
  | .generate_medical_report => none

/-- The external provider outcomes a run consumes: the structured outputs of
the three LLM tools, the optional search text of the two tool-enabled
phases, and the two datetime.now renderings of the report step. -/
structure Providers where
  analysisResult : SymptomAnalysis
  researchInfo : String := ""
  recResult : PatientRecommendation
  additionalResearch : String := ""
  escResult : EscalationAdvice
  now : String := ""
  timestamp : String := ""
deriving Repr

/-- Run one node on the current state.  `resume` is the pending resume value
of the interrupt protocol; only collect_medical_history consults it. -/
def nodeRun (p : Providers) (n : Node) (state : MedicalState) (resume : Option String) :
    StepResult :=
  match n with
  | .collect_patient_info => .completed (collect_patient_info state)
  | .analyze_symptoms_node => .completed (analyze_symptoms_node p.analysisResult p.researchInfo state)
  | .collect_medical_history => collect_medical_history state resume
  | .create_recommendations_node => .completed (create_recommendations_node p.recResult p.additionalResearch state)
  | .escalation_advice_node => .completed (escalation_advice_node p.escResult state)
  | .generate_medical_report => .completed (generate_medical_report p.now p.timestamp state)

/-- Observable scheduler events: a node completing, or the interrupt
suspension with its prompt. -/
inductive Event where
  | completedStep (n : Node)
  | suspendedAt (n : Node) (prompt : String)
deriving Repr, DecidableEq

/-- Outcome of one scheduler phase: trace of events, resulting state, and
the suspension prompt when the phase stopped at an interrupt. -/
structure PhaseResult where
  trace : List Event
  state : MedicalState
  pending : Option (Node × String)
deriving Repr

/-- One scheduler phase: run nodes along the edges, merging each completed
update into the state, until END or an interrupt suspension.  The fuel
bounds execution (the graph has six nodes; medcheck runs with a recursion
limit the same way). -/
def runPhase (p : Providers) (resume : Option String) :
    Nat → Node → MedicalState → List Event → PhaseResult
  | 0, _, state, tr => ⟨tr, state, none⟩
  | fuel + 1, n, state, tr =>
      match nodeRun p n state resume with
      | .suspended prompt => ⟨tr ++ [.suspendedAt n prompt], state, some (n, prompt)⟩
      | .completed upd =>
          let state2 := mergeState state upd
          let tr2 := tr ++ [.completedStep n]
          match nextAfter state2 n with
          | none => ⟨tr2, state2, none⟩
          | some n2 => runPhase p resume fuel n2 state2 tr2

/-- A full invocation with one resume: stream the graph from START until it
suspends or finishes, then (when suspended) resume at the pending node with
`resumeValue`, as main.py does with Command(resume=...). -/
def runWorkflow (p : Providers) (init : MedicalState) (resumeValue : String) :
    List Event × MedicalState :=
  let phase1 := runPhase p none 8 .collect_patient_info init []
  match phase1.pending with
  | none => (phase1.trace, phase1.state)
  | some (n, _) =>
      let phase2 := runPhase p (some resumeValue) 8 n phase1.state []
      (phase1.trace ++ phase2.trace, phase2.state)

/-- The nodes that completed, in completion order. -/
def completedNodes (tr : List Event) : List Node :=
  tr.filterMap (fun e =>
    match e with
    | .completedStep n => some n
    | .suspendedAt _ _ => none)

/-- Whether a step result is a suspension. -/
def isSuspension : StepResult → Bool
  | .suspended _ => true
  | .completed _ => false

/-! ### Search deduplication (utils.py deduplicate_search_results) -/

/-- A single Tavily search result (the fields the code reads). -/
structure SearchResult where
  url : String
  title : String
  content : String
deriving Repr, DecidableEq

/-- One Tavily response: its list of results. -/
structure SearchResponse where
  results : List SearchResult
deriving Repr, DecidableEq

/-- Lookup in an insertion-ordered association list (Python dict access):
first matching key wins. -/
def lookupA : List (String × SearchResult) → String → Option SearchResult
  | [], _ => none
  | (k, v) :: rest, u => if k = u then some v else lookupA rest u

/-- The inner loop of deduplicate_search_results over one response: add each
result under its url unless the url is already present. -/
def insertResults : List (String × SearchResult) → List SearchResult →
    List (String × SearchResult)
  | acc, [] => acc
  | acc, r :: rs =>
      if (lookupA acc r.url).isSome then insertResults acc rs
      else insertResults (acc ++ [(r.url, r)]) rs

/-- utils.py deduplicate_search_results: fold every result of every response
into an insertion-ordered url-keyed dictionary, keeping the first result
seen for each url. -/
def deduplicate_search_results (search_results : List SearchResponse) :
    List (String × SearchResult) :=
  go [] search_results
where
  go (acc : List (String × SearchResult)) : List SearchResponse → List (String × SearchResult)
    | [] => acc
    | response :: rest => go (insertResults acc response.results) rest

/-- All results of all responses, in iteration order. -/
def flattenResults (search_results : List SearchResponse) : List SearchResult :=
  (search_results.map (·.results)).flatten

/-! ### Concrete sample data for witnesses and counterexamples -/

/-- A sample analysis with the given urgency classification. -/
def sampleAnalysis (u : String) : SymptomAnalysis :=
  { symptom_summary := "headache summary"
    possible_conditions := ["tension headache"]
    urgency_level := u
    reasoning := "clinical reasoning" }

/-- A sample recommendation. -/
def sampleRec : PatientRecommendation :=
  { immediate_actions := ["rest"]
    general_care := ["hydrate"]
    when_to_seek_help := "if symptoms worsen"
    follow_up := "see a doctor in two days" }

/-- A sample escalation advice. -/
def sampleEsc : EscalationAdvice :=
  { urgency_message := "urgent case"
    immediate_action := "go to the emergency room"
    warning_signs := ["fainting"]
    emergency_contact := "call 911" }

/-- Sample provider outcomes with the given urgency classification. -/
def sampleProviders (u : String) : Providers :=
  { analysisResult := sampleAnalysis u
    recResult := sampleRec
    escResult := sampleEsc
    now := "2026-10-12 00:00:00"
    timestamp := "20261012_000000" }

/-- The initial state main.py builds for the input headache. -/
def sampleInit : MedicalState :=
  { messages := ["headache"]
    symptoms := some "headache"
    medical_history := some "No medical history provided" }

/-- An initial state whose patient message is the empty string. -/
def emptySymptomInit : MedicalState := { messages := [""] }

/-- A state with no symptom analysis at all (every key absent). -/
def stateNoAnalysis : MedicalState := {}

/-- A state that already carries research notes, used to show the merge
overwrites them. -/
def researchInit : MedicalState :=
  { messages := ["headache"]
    symptoms := some "headache"
    medical_research := some "X" }

/-- A state holding a symptom analysis, for exercising
collect_medical_history directly. -/
def stateWithAnalysis : MedicalState :=
  { messages := ["headache"]
    symptoms := some "headache"
    symptom_analysis := some (sampleAnalysis "low")
    urgency_level := some "low" }

/-- The symptoms string of testable property P5 of the specification
(the apostrophe written via its code point). -/
def c5_symptoms : String :=
  "Severe chest pain!! & can" ++ squote ++ "t breathe"

/-! ## Theorems -/

/-! ### Helper lemmas -/

@[simp] theorem updField_some {α : Type} (v : α) (o : Option α) :
    updField (some v) o = some v := rfl

@[simp] theorem updField_none {α : Type} (o : Option α) :
    updField none o = o := rfl

theorem updField_assoc {α : Type} (a b c : Option α) :
    updField (updField a b) c = updField a (updField b c) := by
  cases a <;> cases b <;> rfl

@[simp] theorem history_update_medical_history (v : String) :
    (history_update v).medical_history =
      some (if v ≠ "" ∧ pyLower (pyStrip v) ∉ noHistoryAnswers then pyStrip v
            else "No additional medical history provided") := by
  unfold history_update
  split <;> simp_all

@[simp] theorem history_update_symptoms (v : String) :
    (history_update v).symptoms = none := by
  unfold history_update
  split <;> rfl

@[simp] theorem history_update_symptom_analysis (v : String) :
    (history_update v).symptom_analysis = none := by
  unfold history_update
  split <;> rfl

@[simp] theorem history_update_medical_research (v : String) :
    (history_update v).medical_research = none := by
  unfold history_update
  split <;> rfl

@[simp] theorem history_update_recommendations (v : String) :
    (history_update v).recommendations = none := by
  unfold history_update
  split <;> rfl

@[simp] theorem history_update_escalation_advice (v : String) :
    (history_update v).escalation_advice = none := by
  unfold history_update
  split <;> rfl

@[simp] theorem history_update_urgency_level (v : String) :
    (history_update v).urgency_level = none := by
  unfold history_update
  split <;> rfl

@[simp] theorem history_update_final_report (v : String) :
    (history_update v).final_report = none := by
  unfold history_update
  split <;> rfl

@[simp] theorem history_update_report_filepath (v : String) :
    (history_update v).report_filepath = none := by
  unfold history_update
  split <;> rfl

theorem should_escalate_iff (st : MedicalState) :
    should_escalate st = "escalation_advice_node" ↔ st.urgency_level = some "urgent" := by
  rcases hst : st.urgency_level with _ | u
  · simp only [should_escalate, hst, Option.getD_none]
    decide
  · by_cases hu : u = "urgent"
    · subst hu
      simp [should_escalate, hst]
    · simp only [should_escalate, hst, Option.getD_some, hu, if_false]
      constructor
      · intro hc
        exact absurd hc (by decide)
      · intro hc
        exact absurd (Option.some.inj hc) hu

theorem routeAfterRecommendations_eq (st : MedicalState) :
    routeAfterRecommendations st =
      if st.urgency_level = some "urgent" then Node.escalation_advice_node
      else Node.generate_medical_report := by
  by_cases h : st.urgency_level = some "urgent"
  · simp [routeAfterRecommendations, (should_escalate_iff st).2 h, h]
  · have hne : should_escalate st ≠ "escalation_advice_node" :=
      fun hc => h ((should_escalate_iff st).1 hc)
    simp [routeAfterRecommendations, hne, h]

/-! ### Claim theorems -/

/-- C1: the branch evaluated after create_recommendations_node routes to
escalation_advice_node iff urgency_level is exactly the string urgent (a
missing urgency_level defaults to low and routes straight to
generate_medical_report); on and only on the urgent path of a run the
escalation step completes and escalation_advice is set in the final state,
and for every other urgency the field stays absent. -/
theorem C1_escalation_branch :
    (∀ st : MedicalState,
        should_escalate st = "escalation_advice_node" ↔ st.urgency_level = some "urgent") ∧
    (∀ st : MedicalState,
        routeAfterRecommendations st = Node.escalation_advice_node ↔
          st.urgency_level = some "urgent") ∧
    (∀ st : MedicalState, st.urgency_level ≠ some "urgent" →
        routeAfterRecommendations st = Node.generate_medical_report) ∧
    (∀ (p : Providers) (init : MedicalState) (v m : String),
        init.messages.getLast? = some m → m ≠ "" → init.escalation_advice = none →
        (p.analysisResult.urgency_level = "urgent" →
            Event.completedStep Node.escalation_advice_node ∈ (runWorkflow p init v).1 ∧
            (runWorkflow p init v).2.escalation_advice = some p.escResult) ∧
        (p.analysisResult.urgency_level ≠ "urgent" →
            Event.completedStep Node.escalation_advice_node ∉ (runWorkflow p init v).1 ∧
            (runWorkflow p init v).2.escalation_advice = none)) := by
  refine ⟨should_escalate_iff, ?_, ?_, ?_⟩
  · intro st
    rw [routeAfterRecommendations_eq]
    by_cases h : st.urgency_level = some "urgent" <;> simp [h]
  · intro st h
    rw [routeAfterRecommendations_eq, if_neg h]
  · intro p init v m h1 h2 h4
    constructor
    · intro hA
      constructor <;>
      simp [runWorkflow, runPhase, nodeRun, collect_patient_info, analyze_symptoms_node,
        collect_medical_history, create_recommendations_node, escalation_advice_node,
        generate_medical_report, should_escalate, routeAfterRecommendations, nextAfter,
        mergeState, h1, h2, h4, hA]
    · intro hA
      constructor <;>
      simp [runWorkflow, runPhase, nodeRun, collect_patient_info, analyze_symptoms_node,
        collect_medical_history, create_recommendations_node, escalation_advice_node,
        generate_medical_report, should_escalate, routeAfterRecommendations, nextAfter,
        mergeState, h1, h2, h4, hA]

/-- Witness for C1 at concrete inputs: the hypotheses hold for sampleInit,
and both branches of the conclusion are exhibited. -/
theorem C1_escalation_branch_witness :
    sampleInit.messages.getLast? = some "headache" ∧
    sampleInit.escalation_advice = none ∧
    (runWorkflow (sampleProviders "urgent") sampleInit "none").2.escalation_advice =
      some sampleEsc ∧
    (runWorkflow (sampleProviders "low") sampleInit "none").2.escalation_advice = none := by
  refine ⟨rfl, rfl, ?_, ?_⟩
  · exact ((C1_escalation_branch.2.2.2 (sampleProviders "urgent") sampleInit "none" "headache"
      rfl (by decide) rfl).1 rfl).2
  · exact ((C1_escalation_branch.2.2.2 (sampleProviders "low") sampleInit "none" "headache"
      rfl (by decide) rfl).2 (by decide)).2

/-- C2: on resume, an empty input or one whose stripped lower-cased form is
no, none, n/a or the empty string stores the fixed sentinel medical history;
every other input is stored stripped; in particular the five listed resume
values all store the sentinel. -/
theorem C2_history_normalization :
    (∀ (st : MedicalState) (a : SymptomAnalysis) (v : String),
        st.symptom_analysis = some a →
        ((v = "" ∨ pyLower (pyStrip v) ∈ noHistoryAnswers) →
            collect_medical_history st (some v) =
              .completed
                { medical_history := some "No additional medical history provided"
                  messages := ["No additional medical history provided"] }) ∧
        (v ≠ "" → pyLower (pyStrip v) ∉ noHistoryAnswers →
            collect_medical_history st (some v) =
              .completed
                { medical_history := some (pyStrip v)
                  messages := ["Medical history collected: " ++ pyStrip v] })) ∧
    (∀ (st : MedicalState) (a : SymptomAnalysis),
        st.symptom_analysis = some a →
        ∀ w ∈ (["no", "NO", " none ", "", "n/a"] : List String),
          collect_medical_history st (some w) =
            .completed
              { medical_history := some "No additional medical history provided"
                messages := ["No additional medical history provided"] }) := by
  have part1 : ∀ (st : MedicalState) (a : SymptomAnalysis) (v : String),
      st.symptom_analysis = some a →
      ((v = "" ∨ pyLower (pyStrip v) ∈ noHistoryAnswers) →
          collect_medical_history st (some v) =
            .completed
              { medical_history := some "No additional medical history provided"
                messages := ["No additional medical history provided"] }) ∧
      (v ≠ "" → pyLower (pyStrip v) ∉ noHistoryAnswers →
          collect_medical_history st (some v) =
            .completed
              { medical_history := some (pyStrip v)
                messages := ["Medical history collected: " ++ pyStrip v] }) := by
    intro st a v h
    constructor
    · intro hv
      have hcond : ¬(v ≠ "" ∧ pyLower (pyStrip v) ∉ noHistoryAnswers) := by
        rcases hv with hv | hv
        · exact fun hc => hc.1 hv
        · exact fun hc => hc.2 hv
      simp [collect_medical_history, h, history_update, hcond]
    · intro hv1 hv2
      simp [collect_medical_history, h, history_update, And.intro hv1 hv2]
  refine ⟨part1, ?_⟩
  intro st a h w hw
  fin_cases hw
  · exact (part1 st a "no" h).1 (by decide)
  · exact (part1 st a "NO" h).1 (by decide)
  · exact (part1 st a " none " h).1 (by decide)
  · exact (part1 st a "" h).1 (by decide)
  · exact (part1 st a "n/a" h).1 (by decide)

/-- Witness for C2 at concrete inputs: a substantive history is stored
stripped, and the resume value NO stores the sentinel. -/
theorem C2_history_normalization_witness :
    stateWithAnalysis.symptom_analysis = some (sampleAnalysis "low") ∧
    collect_medical_history stateWithAnalysis (some " aspirin daily ") =
      .completed
        { medical_history := some "aspirin daily"
          messages := ["Medical history collected: aspirin daily"] } ∧
    collect_medical_history stateWithAnalysis (some "NO") =
      .completed
        { medical_history := some "No additional medical history provided"
          messages := ["No additional medical history provided"] } := by
  refine ⟨rfl, ?_, ?_⟩
  · have h := (C2_history_normalization.1 stateWithAnalysis (sampleAnalysis "low")
      " aspirin daily " rfl).2 (by decide) (by decide)
    rw [show pyStrip " aspirin daily " = "aspirin daily" from rfl] at h
    exact h
  · exact C2_history_normalization.2 stateWithAnalysis (sampleAnalysis "low") rfl "NO"
      (by decide)

/-- Counterexample to C3 as stated: a first entry of collect_medical_history
with no symptom analysis present completes with a status message instead of
issuing a suspend signal. -/
theorem C3_counterexample :
    collect_medical_history stateNoAnalysis none =
      .completed { messages := ["No symptom analysis available for medical history collection"] } ∧
    isSuspension (collect_medical_history stateNoAnalysis none) = false :=
  ⟨rfl, rfl⟩

/-- C3 amended: collect_medical_history is the sole suspension point (no
other node ever returns a suspension, and a suspension only happens on first
entry, with no resume value bound); on first entry with a symptom analysis
present it suspends with the prompt built from that analysis; with no
analysis it completes with a status message; re-entry with a resume value
always completes. -/
theorem C3_sole_suspension :
    (∀ (p : Providers) (n : Node) (st : MedicalState) (r : Option String) (pr : String),
        nodeRun p n st r = .suspended pr → n = Node.collect_medical_history ∧ r = none) ∧
    (∀ (st : MedicalState) (a : SymptomAnalysis), st.symptom_analysis = some a →
        collect_medical_history st none = .suspended (interrupt_message a)) ∧
    (∀ st : MedicalState, st.symptom_analysis = none →
        collect_medical_history st none =
          .completed { messages := ["No symptom analysis available for medical history collection"] }) ∧
    (∀ (st : MedicalState) (v : String) (a : SymptomAnalysis), st.symptom_analysis = some a →
        collect_medical_history st (some v) = .completed (history_update v)) := by
  refine ⟨?_, ?_, ?_, ?_⟩
  · intro p n st r pr h
    cases n <;> simp only [nodeRun] at h
    · exact absurd h (by simp)
    · exact absurd h (by simp)
    · refine ⟨rfl, ?_⟩
      rcases hsa : st.symptom_analysis with _ | a
      · rw [collect_medical_history, hsa] at h
        exact absurd h (by simp)
      · rcases r with _ | v
        · rfl
        · rw [collect_medical_history, hsa] at h
          exact absurd h (by simp)
    · exact absurd h (by simp)
    · exact absurd h (by simp)
    · exact absurd h (by simp)
  · intro st a h
    rw [collect_medical_history, h]
  · intro st h
    rw [collect_medical_history, h]
  · intro st v a h
    rw [collect_medical_history, h]

/-- Witness for C3 at a concrete input: a state with an analysis suspends on
first entry with the prompt built from it. -/
theorem C3_sole_suspension_witness :
    stateWithAnalysis.symptom_analysis = some (sampleAnalysis "low") ∧
    collect_medical_history stateWithAnalysis none =
      .suspended (interrupt_message (sampleAnalysis "low")) :=
  ⟨rfl, C3_sole_suspension.2.1 stateWithAnalysis (sampleAnalysis "low") rfl⟩

/-- Counterexample to C4 as stated: with an empty symptoms message the
workflow raises no error and does not stop at a failing step: every node
completes, no suspension happens, and a final report is still produced
although no symptom analysis was ever stored. -/
theorem C4_counterexample :
    (runWorkflow (sampleProviders "low") emptySymptomInit "unused").1 =
      [Event.completedStep Node.collect_patient_info,
       Event.completedStep Node.analyze_symptoms_node,
       Event.completedStep Node.collect_medical_history,
       Event.completedStep Node.create_recommendations_node,
       Event.completedStep Node.generate_medical_report] ∧
    ((runWorkflow (sampleProviders "low") emptySymptomInit "unused").2.final_report).isSome
      = true ∧
    (runWorkflow (sampleProviders "low") emptySymptomInit "unused").2.symptom_analysis
      = none :=
  ⟨rfl, rfl, rfl⟩

/-- C4 amended: with missing or empty symptoms no error is raised anywhere
in the workflow: collect_patient_info and analyze_symptoms_node return only
status messages, no symptom analysis is stored, no suspension happens, and
the workflow still advances through every remaining step and produces a
final report (the empty-symptom refusal lives in the caller, main.py, which
does not start the workflow). -/
theorem C4_empty_symptoms_no_error :
    ∀ (p : Providers) (v : String) (init : MedicalState),
      init.messages.getLast? = some "" → init.symptom_analysis = none →
      init.urgency_level = none →
      (runWorkflow p init v).1 =
        [Event.completedStep Node.collect_patient_info,
         Event.completedStep Node.analyze_symptoms_node,
         Event.completedStep Node.collect_medical_history,
         Event.completedStep Node.create_recommendations_node,
         Event.completedStep Node.generate_medical_report] ∧
      (runWorkflow p init v).2.symptom_analysis = none ∧
      ((runWorkflow p init v).2.final_report).isSome = true := by
  intro p v init h1 h3 h5
  refine ⟨?_, ?_, ?_⟩ <;>
  simp [runWorkflow, runPhase, nodeRun, collect_patient_info, analyze_symptoms_node,
    collect_medical_history, create_recommendations_node, escalation_advice_node,
    generate_medical_report, should_escalate, routeAfterRecommendations, nextAfter,
    mergeState, h1, h3, h5, show ("low" : String) ≠ "urgent" from by decide]

/-- Witness for C4 amended at the concrete empty-symptom state. -/
theorem C4_empty_symptoms_no_error_witness :
    emptySymptomInit.messages.getLast? = some "" ∧
    emptySymptomInit.symptom_analysis = none ∧
    ((runWorkflow (sampleProviders "low") emptySymptomInit "unused").2.final_report).isSome
      = true :=
  ⟨rfl, rfl,
    (C4_empty_symptoms_no_error (sampleProviders "low") "unused" emptySymptomInit
      rfl rfl rfl).2.2⟩

/-- Counterexample to C5 as stated: for the symptoms string of property P5
the derived symptom portion is Severe_chest_pain_cant_br (the 30-character
truncation happens before sanitization), not Severe_chest_pain_cant_breathe. -/
theorem C5_counterexample :
    symptom_preview c5_symptoms = "Severe_chest_pain_cant_br" ∧
    (("Severe_chest_pain_cant_br" : String) == "Severe_chest_pain_cant_breathe") = false ∧
    report_filename "20260101_120000" c5_symptoms =
      "medical_analysis_20260101_120000_Severe_chest_pain_cant_br.md" :=
  ⟨rfl, rfl, rfl⟩

theorem spec_keepChar_eq (c : Char) : spec_keepChar c = keepChar c := by
  rw [Bool.eq_iff_iff]
  simp only [spec_keepChar, keepChar, isWordChar, isSpaceChar, Char.isAlphanum, Char.isAlpha,
    Char.isUpper, Char.isLower, Char.isDigit, Bool.or_eq_true, Bool.and_eq_true,
    decide_eq_true_eq, Char.le_def, ge_iff_le,
    show ('A').val = 65 from rfl, show ('Z').val = 90 from rfl,
    show ('a').val = 97 from rfl, show ('z').val = 122 from rfl,
    show ('0').val = 48 from rfl, show ('9').val = 57 from rfl]

theorem collapseRuns_true_eq (l : List Char) :
    collapseRuns l true = collapseRuns (l.dropWhile isDashSpace) false := by
  induction l with
  | nil => rfl
  | cons c cs ih =>
      by_cases h : isDashSpace c = true
      · simp [collapseRuns, h, List.dropWhile_cons, ih]
      · simp [collapseRuns, h, List.dropWhile_cons]

theorem spec_collapse_eq (l : List Char) : spec_collapse l = collapseRuns l false := by
  induction l using spec_collapse.induct with
  | case1 => simp [spec_collapse, collapseRuns]
  | case2 c cs h ih => simp [spec_collapse, collapseRuns, h, ih, collapseRuns_true_eq]
  | case3 c cs h ih => simp [spec_collapse, collapseRuns, h, ih]

theorem spec_prefix_eq (s : String) : spec_sanitized_prefix s = symptom_preview s := by
  unfold spec_sanitized_prefix symptom_preview
  rw [spec_collapse_eq, show spec_keepChar = keepChar from funext spec_keepChar_eq]

/-- C5 amended: the persisted filename is
medical_analysis_(timestamp)_(sanitized prefix).md where the sanitized
prefix is obtained exactly as the specification describes (first 30
characters, characters outside the class removed, whitespace/hyphen runs
collapsed to one underscore); for the P5 symptoms string that prefix is
Severe_chest_pain_cant_br, not Severe_chest_pain_cant_breathe. -/
theorem C5_filename_rule :
    (∀ symptoms : String, symptom_preview symptoms = spec_sanitized_prefix symptoms) ∧
    (∀ ts symptoms : String, report_filename ts symptoms =
        "medical_analysis_" ++ ts ++ "_" ++ spec_sanitized_prefix symptoms ++ ".md") ∧
    symptom_preview c5_symptoms = "Severe_chest_pain_cant_br" := by
  refine ⟨fun s => (spec_prefix_eq s).symm, ?_, rfl⟩
  intro ts s
  rw [report_filename, spec_prefix_eq]

/-- C6: for every run with a non-empty latest patient message, the event
trace is exactly collect_patient_info, analyze_symptoms_node, the suspension
of collect_medical_history, its completion on resume,
create_recommendations_node, the escalation step exactly when urgent, then
generate_medical_report; the report step is last and no node completes more
than once. -/
theorem C6_step_ordering :
    ∀ (p : Providers) (init : MedicalState) (v m : String),
      init.messages.getLast? = some m → m ≠ "" →
      (runWorkflow p init v).1 =
        [Event.completedStep Node.collect_patient_info,
         Event.completedStep Node.analyze_symptoms_node,
         Event.suspendedAt Node.collect_medical_history (interrupt_message p.analysisResult),
         Event.completedStep Node.collect_medical_history,
         Event.completedStep Node.create_recommendations_node] ++
        (if p.analysisResult.urgency_level = "urgent"
          then [Event.completedStep Node.escalation_advice_node] else []) ++
        [Event.completedStep Node.generate_medical_report] ∧
      (runWorkflow p init v).1.getLast? =
        some (Event.completedStep Node.generate_medical_report) ∧
      completedNodes (runWorkflow p init v).1 =
        [Node.collect_patient_info, Node.analyze_symptoms_node, Node.collect_medical_history,
         Node.create_recommendations_node] ++
        (if p.analysisResult.urgency_level = "urgent"
          then [Node.escalation_advice_node] else []) ++
        [Node.generate_medical_report] ∧
      (completedNodes (runWorkflow p init v).1).Nodup := by
  intro p init v m h1 h2
  have htrace : (runWorkflow p init v).1 =
      [Event.completedStep Node.collect_patient_info,
       Event.completedStep Node.analyze_symptoms_node,
       Event.suspendedAt Node.collect_medical_history (interrupt_message p.analysisResult),
       Event.completedStep Node.collect_medical_history,
       Event.completedStep Node.create_recommendations_node] ++
      (if p.analysisResult.urgency_level = "urgent"
        then [Event.completedStep Node.escalation_advice_node] else []) ++
      [Event.completedStep Node.generate_medical_report] := by
    by_cases hA : p.analysisResult.urgency_level = "urgent" <;>
    simp [runWorkflow, runPhase, nodeRun, collect_patient_info, analyze_symptoms_node,
      collect_medical_history, create_recommendations_node, escalation_advice_node,
      generate_medical_report, should_escalate, routeAfterRecommendations, nextAfter,
      mergeState, h1, h2, hA]
  refine ⟨htrace, ?_, ?_, ?_⟩
  · rw [htrace]
    by_cases hA : p.analysisResult.urgency_level = "urgent" <;> simp [hA]
  · rw [htrace]
    by_cases hA : p.analysisResult.urgency_level = "urgent" <;> simp [hA, completedNodes]
  · rw [htrace]
    by_cases hA : p.analysisResult.urgency_level = "urgent" <;>
      simp [hA, completedNodes]

/-- Witness for C6 at concrete inputs. -/
theorem C6_step_ordering_witness :
    sampleInit.messages.getLast? = some "headache" ∧
    (runWorkflow (sampleProviders "low") sampleInit "none").1.getLast? =
      some (Event.completedStep Node.generate_medical_report) :=
  ⟨rfl, (C6_step_ordering (sampleProviders "low") sampleInit "none" "headache"
    rfl (by decide)).2.1⟩

/-- Counterexample to C7 as stated: a state already holding research notes X
loses them when analyze_symptoms_node returns a medical_research value: the
merge overwrites the field (no character of X survives), it does not
concatenate. -/
theorem C7_counterexample :
    researchInit.medical_research = some "X" ∧
    (analyze_symptoms_node (sampleAnalysis "low") "" researchInit).medical_research =
      some "No additional research needed" ∧
    (mergeState researchInit
        (analyze_symptoms_node (sampleAnalysis "low") "" researchInit)).medical_research =
      some "No additional research needed" ∧
    (((mergeState researchInit
        (analyze_symptoms_node (sampleAnalysis "low") "" researchInit)).medical_research.getD
        "").data.contains 'X') = false :=
  ⟨rfl, rfl, rfl, rfl⟩

/-- C7 amended: only the messages field is append-only under the state
merge; medical_research, like every other non-message field, is overwritten
whenever a step returns it.  Earlier research survives a later write only
because create_recommendations_node itself concatenates its additional
research onto the research value it read from the state. -/
theorem C7_research_overwrite :
    (∀ (s : MedicalState) (u : StateUpdate),
        (mergeState s u).messages = s.messages ++ u.messages) ∧
    (∀ (s : MedicalState) (u : StateUpdate) (r : String), u.medical_research = some r →
        (mergeState s u).medical_research = some r) ∧
    (∀ (s : MedicalState) (u : StateUpdate), u.medical_research = none →
        (mergeState s u).medical_research = s.medical_research) ∧
    (∀ (st : MedicalState) (a : SymptomAnalysis) (rec : PatientRecommendation) (add : String),
        st.symptom_analysis = some a → add ≠ "" →
        (create_recommendations_node rec add st).medical_research =
          some (st.medical_research.getD "" ++ "\n" ++ add)) ∧
    (∀ (st : MedicalState) (a : SymptomAnalysis) (rec : PatientRecommendation),
        st.symptom_analysis = some a →
        (create_recommendations_node rec "" st).medical_research =
          some (st.medical_research.getD "")) := by
  refine ⟨fun s u => rfl, ?_, ?_, ?_, ?_⟩
  · intro s u r h
    simp [mergeState, h]
  · intro s u h
    simp [mergeState, h]
  · intro st a rec add h hne
    simp [create_recommendations_node, h, hne]
  · intro st a rec h
    simp [create_recommendations_node, h]

/-- Witness for C7 amended at concrete inputs. -/
theorem C7_research_overwrite_witness :
    stateWithAnalysis.symptom_analysis = some (sampleAnalysis "low") ∧
    (create_recommendations_node sampleRec "extra" stateWithAnalysis).medical_research =
      some "\nextra" := by
  refine ⟨rfl, ?_⟩
  have h := C7_research_overwrite.2.2.2.1 stateWithAnalysis (sampleAnalysis "low") sampleRec
    "extra" rfl (by decide)
  exact h.trans (by decide)

/-- C8: generate_medical_report is terminal: its outgoing edge is END, so
running the scheduler at the report node performs exactly that one step,
stops with the post-report state (final_report set to the rendered report),
and mutates nothing afterwards, whatever fuel remains; in every run with a
non-empty patient message the final state has final_report set and the
report completion is the last event. -/
theorem C8_terminal_report :
    (∀ st : MedicalState, nextAfter st Node.generate_medical_report = none) ∧
    (∀ (p : Providers) (r : Option String) (fuel : Nat) (st : MedicalState) (tr : List Event),
        runPhase p r (fuel + 1) Node.generate_medical_report st tr =
          ⟨tr ++ [Event.completedStep Node.generate_medical_report],
            mergeState st (generate_medical_report p.now p.timestamp st), none⟩) ∧
    (∀ (p : Providers) (st : MedicalState),
        (mergeState st (generate_medical_report p.now p.timestamp st)).final_report =
          some (report_content p.now st)) ∧
    (∀ (p : Providers) (init : MedicalState) (v m : String),
        init.messages.getLast? = some m → m ≠ "" →
        ((runWorkflow p init v).2.final_report).isSome = true ∧
        (runWorkflow p init v).1.getLast? =
          some (Event.completedStep Node.generate_medical_report)) := by
  refine ⟨fun st => rfl, fun p r fuel st tr => rfl, fun p st => rfl, ?_⟩
  intro p init v m h1 h2
  constructor
  · by_cases hA : p.analysisResult.urgency_level = "urgent" <;>
    simp [runWorkflow, runPhase, nodeRun, collect_patient_info, analyze_symptoms_node,
      collect_medical_history, create_recommendations_node, escalation_advice_node,
      generate_medical_report, should_escalate, routeAfterRecommendations, nextAfter,
      mergeState, h1, h2, hA]
  · by_cases hA : p.analysisResult.urgency_level = "urgent" <;>
    simp [runWorkflow, runPhase, nodeRun, collect_patient_info, analyze_symptoms_node,
      collect_medical_history, create_recommendations_node, escalation_advice_node,
      generate_medical_report, should_escalate, routeAfterRecommendations, nextAfter,
      mergeState, h1, h2, hA]

/-- Witness for C8 at concrete inputs. -/
theorem C8_terminal_report_witness :
    sampleInit.messages.getLast? = some "headache" ∧
    ((runWorkflow (sampleProviders "low") sampleInit "none").2.final_report).isSome = true :=
  ⟨rfl, (C8_terminal_report.2.2.2 (sampleProviders "low") sampleInit "none" "headache"
    rfl (by decide)).1⟩

/-- C9: whenever its preconditions fail (urgency not exactly urgent, with a
missing urgency read as low, or a missing symptom analysis or missing
recommendations), escalation_advice_node returns a message-only update: it
leaves escalation_advice unset and the merged state changes no field except
the appended message. -/
theorem C9_escalation_frame :
    ∀ (esc : EscalationAdvice) (st : MedicalState),
      (st.urgency_level.getD "low" ≠ "urgent" ∨ st.symptom_analysis = none ∨
        st.recommendations = none) →
      (escalation_advice_node esc st).escalation_advice = none ∧
      mergeState st (escalation_advice_node esc st) =
        { st with messages := st.messages ++ (escalation_advice_node esc st).messages } := by
  intro esc st h
  by_cases hu : st.urgency_level.getD "low" ≠ "urgent"
  · rw [escalation_advice_node, if_pos hu]
    exact ⟨rfl, rfl⟩
  · have hdata : st.symptom_analysis = none ∨ st.recommendations = none := by
      rcases h with h | h | h
      · exact absurd h hu
      · exact Or.inl h
      · exact Or.inr h
    rw [escalation_advice_node, if_neg hu]
    cases hsa : st.symptom_analysis with
    | none =>
        cases hr : st.recommendations with
        | none =>
            refine ⟨rfl, ?_⟩
            simp [mergeState, updField, hsa, hr]
        | some rec =>
            refine ⟨rfl, ?_⟩
            simp [mergeState, updField, hsa, hr]
    | some a =>
        cases hr : st.recommendations with
        | none =>
            refine ⟨rfl, ?_⟩
            simp [mergeState, updField, hsa, hr]
        | some rec =>
            exfalso
            rcases hdata with hx | hx
            · rw [hsa] at hx
              exact Option.noConfusion hx
            · rw [hr] at hx
              exact Option.noConfusion hx

/-- Witness for C9 at a concrete input: a low-urgency state is left intact. -/
theorem C9_escalation_frame_witness :
    (stateWithAnalysis.urgency_level.getD "low" ≠ "urgent" ∨
      stateWithAnalysis.symptom_analysis = none ∨
      stateWithAnalysis.recommendations = none) ∧
    (escalation_advice_node sampleEsc stateWithAnalysis).escalation_advice = none :=
  ⟨Or.inl (by decide),
    (C9_escalation_frame sampleEsc stateWithAnalysis (Or.inl (by decide))).1⟩

theorem updField_none_right {α : Type} (a : Option α) : updField a none = a := by
  cases a <;> rfl

theorem lookupA_append (a b : List (String × SearchResult)) (u : String) :
    lookupA (a ++ b) u = updField (lookupA a u) (lookupA b u) := by
  induction a with
  | nil => simp [lookupA]
  | cons kv rest ih =>
      obtain ⟨k, r⟩ := kv
      by_cases h : k = u <;> simp [lookupA, h, ih]

theorem lookupA_isSome_iff (acc : List (String × SearchResult)) (u : String) :
    (lookupA acc u).isSome = true ↔ u ∈ acc.map Prod.fst := by
  induction acc with
  | nil => simp [lookupA]
  | cons kv rest ih =>
      obtain ⟨k, r⟩ := kv
      by_cases h : k = u
      · subst h
        simp [lookupA]
      · simp [lookupA, h, ih, Ne.symm h]

theorem find?_append_eq {α : Type} (p : α → Bool) (l1 l2 : List α) :
    (l1 ++ l2).find? p = updField (l1.find? p) (l2.find? p) := by
  induction l1 with
  | nil => simp [updField]
  | cons a l ih =>
      by_cases h : p a
      · simp [List.find?_cons_of_pos, h]
      · simp [List.find?_cons_of_neg, h, ih]

theorem lookupA_insertResults (rs : List SearchResult)
    (acc : List (String × SearchResult)) (u : String) :
    lookupA (insertResults acc rs) u =
      updField (lookupA acc u) (rs.find? (fun r => r.url == u)) := by
  induction rs generalizing acc with
  | nil => simp [insertResults, updField_none_right]
  | cons r rs ih =>
      rw [insertResults]
      by_cases hc : (lookupA acc r.url).isSome = true
      · rw [if_pos hc, ih]
        by_cases hu : (r.url == u) = true
        · have hu' : r.url = u := eq_of_beq hu
          subst hu'
          obtain ⟨w, hw⟩ := Option.isSome_iff_exists.mp hc
          simp [List.find?_cons, hw]
        · simp [List.find?_cons, hu]
      · rw [if_neg hc, ih, lookupA_append]
        by_cases hu : (r.url == u) = true
        · have hu' : r.url = u := eq_of_beq hu
          subst hu'
          have hnone : lookupA acc r.url = none := by
            cases hx : lookupA acc r.url with
            | none => rfl
            | some w =>
                rw [hx] at hc
                exact absurd rfl hc
          simp [List.find?_cons, lookupA, hnone]
        · have hu' : ¬ r.url = u := fun e => hu (by simp [e])
          simp [List.find?_cons, hu, lookupA, hu', updField_none_right]

theorem keys_insertResults (rs : List SearchResult)
    (acc : List (String × SearchResult)) (hn : (acc.map Prod.fst).Nodup) :
    ((insertResults acc rs).map Prod.fst).Nodup := by
  induction rs generalizing acc with
  | nil => simpa [insertResults]
  | cons r rs ih =>
      rw [insertResults]
      by_cases hc : (lookupA acc r.url).isSome = true
      · rw [if_pos hc]
        exact ih acc hn
      · rw [if_neg hc]
        apply ih
        rw [List.map_append]
        refine List.Nodup.append hn (List.nodup_singleton _) ?_
        intro x hx hx2
        simp only [List.map_cons, List.map_nil, List.mem_singleton] at hx2
        subst hx2
        exact hc ((lookupA_isSome_iff acc r.url).mpr hx)

theorem lookupA_dedup (rs : List SearchResponse) (u : String) :
    lookupA (deduplicate_search_results rs) u =
      (flattenResults rs).find? (fun r => r.url == u) := by
  suffices h : ∀ (rss : List SearchResponse) (acc : List (String × SearchResult)),
      lookupA (deduplicate_search_results.go acc rss) u =
        updField (lookupA acc u) ((flattenResults rss).find? (fun r => r.url == u)) by
    have h2 := h rs []
    simpa [deduplicate_search_results, lookupA] using h2
  intro rss
  induction rss with
  | nil =>
      intro acc
      simp [deduplicate_search_results.go, flattenResults, updField_none_right]
  | cons resp rest ih =>
      intro acc
      rw [show deduplicate_search_results.go acc (resp :: rest) =
            deduplicate_search_results.go (insertResults acc resp.results) rest from rfl]
      rw [ih, lookupA_insertResults]
      rw [show flattenResults (resp :: rest) = resp.results ++ flattenResults rest from by
        simp [flattenResults]]
      rw [find?_append_eq, updField_assoc]

theorem dedup_keys_nodup (rs : List SearchResponse) :
    ((deduplicate_search_results rs).map Prod.fst).Nodup := by
  suffices h : ∀ (rss : List SearchResponse) (acc : List (String × SearchResult)),
      (acc.map Prod.fst).Nodup →
      ((deduplicate_search_results.go acc rss).map Prod.fst).Nodup by
    exact h rs [] (by simp)
  intro rss
  induction rss with
  | nil =>
      intro acc h
      simpa [deduplicate_search_results.go] using h
  | cons resp rest ih =>
      intro acc h
      rw [show deduplicate_search_results.go acc (resp :: rest) =
            deduplicate_search_results.go (insertResults acc resp.results) rest from rfl]
      exact ih _ (keys_insertResults _ _ h)

/-- C10: deduplicate_search_results is first-wins per URL: its keys are
pairwise distinct, a URL has an entry exactly when some result of some
response carries it, and the stored entry is the first result with that URL
in response order, so every later duplicate is discarded. -/
theorem C10_dedup_first_wins :
    ∀ rs : List SearchResponse,
      ((deduplicate_search_results rs).map Prod.fst).Nodup ∧
      (∀ u : String, lookupA (deduplicate_search_results rs) u =
          (flattenResults rs).find? (fun r => r.url == u)) ∧
      (∀ u : String, (lookupA (deduplicate_search_results rs) u).isSome = true ↔
          u ∈ (flattenResults rs).map (·.url)) := by
  intro rs
  refine ⟨dedup_keys_nodup rs, fun u => lookupA_dedup rs u, fun u => ?_⟩
  rw [lookupA_dedup]
  rw [List.find?_isSome]
  simp [List.mem_map]

end MedCheck
